import Mathlib

/-!
Verification of the txb-unibox-crm mailbox-sync / send / tracking core.

Shallow embedding of the relevant source functions into Lean, with theorems
checking the specification's claims against them.  Each definition's doc
comment names the source file and lines it embeds.  JS truthiness on strings
(`""`, `null`, `undefined` falsy) is modelled with `Option String` plus the
`jsOr` / `optStr` helpers; epoch-millisecond `Int` values stand in for
`Date` objects.
-/

/-- JS `a || b` on strings: the empty string is falsy. -/
def jsOr (a b : String) : String := if a = "" then b else a

/-- A JS nullable string seen through a truthiness test: `null`/`undefined`
behave as `""`. -/
def optStr : Option String → String
  | some s => s
  | none => ""

/-- JS `s.includes(needle)` on strings. -/
def strIncludes (hay needle : String) : Bool :=
  hay.toList.tails.any (fun t => needle.toList.isPrefixOf t)

/-- JS `s.startsWith(p)` on strings. -/
def strStartsWith (s p : String) : Bool := p.toList.isPrefixOf s.toList

/-- JS `s.toLowerCase()` (ASCII), written over the character list so it
evaluates in the kernel. -/
def strToLower (s : String) : String := ⟨s.data.map Char.toLower⟩

namespace Unibox

/-- A timeline item as built by `UniboxService.fetchThreadHistory` (both the
`unibox.js` and the `app.js` variant spread the source row, so the row id and
provider message id are carried through). -/
structure TimelineItem where
  message_id : Option String
  id : String
  direction : String
  timestamp : Int
  deriving DecidableEq, Repr

/-- Timestamp comparison used by the final history sort
(`history.sort((a, b) => new Date(a.timestamp) - new Date(b.timestamp))`). -/
def tsLe (a b : TimelineItem) : Prop := a.timestamp ≤ b.timestamp

instance : DecidableRel tsLe := fun a b => inferInstanceAs (Decidable (a.timestamp ≤ b.timestamp))

instance : IsTotal TimelineItem tsLe := ⟨fun a b => Int.le_total a.timestamp b.timestamp⟩

instance : IsTrans TimelineItem tsLe := ⟨fun _ _ _ h h2 => le_trans h h2⟩

/-- Ascending-by-timestamp comparison sort of the combined history list. -/
def sortByTs (l : List TimelineItem) : List TimelineItem := List.insertionSort tsLe l

/-- A row of the `replies` table as read by `unibox.js` `fetchThreadHistory`. -/
structure UReply where
  message_id : Option String
  id : String
  received_at : Int
  deriving DecidableEq, Repr

/-- A row of the `email_logs` table (status `Sent`) as read by `unibox.js`
`fetchThreadHistory`. -/
structure USent where
  message_id : Option String
  id : String
  sent_at : Int
  deriving DecidableEq, Repr

/-- `src/src/pages/unibox.js` lines 98-149: combine the `replies` rows
(mapped with `type: 'received', timestamp: r.received_at`) and the
`email_logs` rows (mapped with `type: 'sent', timestamp: s.sent_at`), then
sort the merged list ascending by timestamp.  No deduplication is
performed. -/
def fetchThreadHistoryUnibox (replies : List UReply) (sentLogs : List USent) :
    List TimelineItem :=
  sortByTs
    (replies.map
        (fun r => { message_id := r.message_id, id := r.id,
                    direction := "received", timestamp := r.received_at })
      ++ sentLogs.map
        (fun s => { message_id := s.message_id, id := s.id,
                    direction := "sent", timestamp := s.sent_at }))

/-- A row of the `replies` table as read by `app.js` `fetchThreadHistory`.
Timestamps travel as ISO strings in JS, so `received_at || created_at` falls
back exactly when `received_at` is null/undefined; we model them as
`Option Int` / `Int` epoch values. -/
structure AReply where
  message_id : Option String
  id : String
  typ : Option String
  received_at : Option Int
  created_at : Int
  deriving DecidableEq, Repr

/-- `src/src/pages/app.js` line 285: `const msgId = item.message_id || item.id`. -/
def appKey (r : AReply) : String := jsOr (optStr r.message_id) r.id

/-- The same key recomputed from an emitted item (the spread keeps both
fields). -/
def itemKey (i : TimelineItem) : String := jsOr (optStr i.message_id) i.id

/-- The normalized item `app.js` pushes (spread plus
`type: item.type || 'received'` and `timestamp: received_at || created_at`). -/
def mkItem (r : AReply) : TimelineItem :=
  { message_id := r.message_id, id := r.id,
    direction := jsOr (optStr r.typ) "received",
    timestamp := match r.received_at with
                 | some t => t
                 | none => r.created_at }

/-- `src/src/pages/app.js` lines 284-293 `addMessage`: skip when the key is
truthy and already seen, otherwise record the key (when truthy) and push the
item. -/
def addMessage (st : List String × List TimelineItem) (r : AReply) :
    List String × List TimelineItem :=
  let k := appKey r
  if k ≠ "" ∧ k ∈ st.1 then st
  else ((if k ≠ "" then k :: st.1 else st.1), st.2 ++ [mkItem r])

/-- The dedup pass of `src/src/pages/app.js` lines 281-295. -/
def appDedup (rows : List AReply) : List TimelineItem :=
  (rows.foldl addMessage ([], [])).2

/-- `src/src/pages/app.js` `fetchThreadHistory` final shape (lines 280-299):
dedup then sort ascending by timestamp. -/
def fetchThreadHistoryApp (rows : List AReply) : List TimelineItem :=
  sortByTs (appDedup rows)

/-- The non-empty keys of the emitted items. -/
def neKeys (l : List TimelineItem) : List String :=
  (l.map itemKey).filter (fun s => s ≠ "")

end Unibox

namespace SendEmail

/-- The `error` member of a Gmail API send response (`sendData.error`);
`message` is `""` when absent. -/
structure GmailError where
  message : String
  deriving DecidableEq, Repr

/-- A Gmail API send response: either an error payload or the assigned
message id and thread id. -/
structure SendOutcome where
  error : Option GmailError
  id : String
  threadId : String
  deriving DecidableEq, Repr

/-- `send-email` (src/unnamed/part_002) line 378:
`sendData.error?.message?.includes('Invalid thread_id')`. -/
def invalidThread (o : SendOutcome) : Bool :=
  match o.error with
  | some e => strIncludes e.message "Invalid thread_id"
  | none => false

/-- JS `threadId || null`: an empty string collapses to null. -/
def jsOrNull : Option String → Option String
  | some s => if s = "" then none else some s
  | none => none

/-- `send-email` lines 362-381: call the provider once with the (truthy)
thread id; if the response error message includes `Invalid thread_id`,
call it exactly once more with the thread id omitted.  Returns the final
outcome together with the list of provider-call arguments, in order. -/
def sendWithFallback (provider : Option String → SendOutcome)
    (threadId : Option String) : SendOutcome × List (Option String) :=
  let t0 := jsOrNull threadId
  let r1 := provider t0
  if invalidThread r1 then (provider none, [t0, none]) else (r1, [t0])

/-- `send-email` line 339:
`subject && subject.startsWith('Re:') ? subject : `Re: ${subject || '(no subject)'}``. -/
def strSubject : Option String → String
  | some s =>
      if s ≠ "" ∧ strStartsWith s "Re:" then s
      else "Re: " ++ (if s = "" then "(no subject)" else s)
  | none => "Re: " ++ "(no subject)"

/-- `send-email` lines 340-354: the raw RFC-2822 lines (headers, blank
separator, body).  `In-Reply-To`/`References` are appended only when
`originalMessageId` is truthy; `references` is `originalMessageId || ''`. -/
def rawLines (fromAddr toAddr : String) (subject : Option String)
    (originalMessageId : Option String) (finalHtml : String) : List String :=
  (["From: " ++ fromAddr,
    "To: " ++ toAddr,
    "Subject: " ++ strSubject subject,
    "MIME-Version: 1.0",
    "Content-Type: text/html; charset=utf-8"]
    ++ (if optStr originalMessageId = "" then []
        else ["In-Reply-To: " ++ optStr originalMessageId,
              "References: " ++ jsOr (optStr originalMessageId) ""]))
    ++ ["", finalHtml]

/-- The row inserted into `replies` after a successful provider send
(lines 395-411), restricted to the provider-derived fields. -/
structure ReplyInsertRow where
  message_id : String
  thread_id : String
  deriving DecidableEq, Repr

/-- The row inserted into `email_logs` after a successful provider send
(lines 421-434), restricted to the tracked fields. -/
structure OutboundLogRow where
  id : String
  message_id : String
  thread_id : String
  deriving DecidableEq, Repr

/-- The HTTP response of the send endpoint. -/
inductive SendResponse where
  | ok (id threadId : String)
  | gmailErr (msg : String)
  deriving DecidableEq, Repr

/-- One full run of the post-token part of the `send-email` endpoint:
provider calls made, rows actually persisted, and the HTTP response. -/
structure PipelineRun where
  calls : List (Option String)
  replies : List ReplyInsertRow
  logs : List OutboundLogRow
  response : SendResponse
  deriving DecidableEq, Repr

/-- `send-email` lines 377-446: provider call with single thread-fallback
retry, then — only when the final outcome has no error — one awaited
`replies` insert and one awaited `email_logs` insert whose failures are
logged and ignored (`dbReplyOk` / `dbLogOk` model those insert outcomes),
and a success response carrying the provider's id and threadId.  On a final
provider error nothing is persisted and the error is returned. -/
def sendPipeline (provider : Option String → SendOutcome)
    (threadId : Option String) (dbReplyOk dbLogOk : Bool) (logId : String) :
    PipelineRun :=
  let fr := sendWithFallback provider threadId
  match fr.1.error with
  | some e => { calls := fr.2, replies := [], logs := [], response := .gmailErr e.message }
  | none =>
      { calls := fr.2,
        replies := if dbReplyOk then [{ message_id := fr.1.id, thread_id := fr.1.threadId }] else [],
        logs := if dbLogOk then [{ id := logId, message_id := fr.1.id, thread_id := fr.1.threadId }] else [],
        response := .ok fr.1.id fr.1.threadId }

end SendEmail

namespace Tracker

/-- The base64 payload of the fixed 1×1 transparent PNG served by the
tracker (src/unnamed/part_003 line 11). -/
def TRANSPARENT_PIXEL_B64 : String :=
  "iVBORw0KGgoAAAANSUhEUgAAAAEAAAABCAQAAAC1HAwCAAAAC0lEQVR42mNkYAAAAAYAAjCB0C8AAAAASUVORK5CYII="

/-- An `email_logs` row as touched by the tracker. -/
structure LogRow where
  id : String
  opened_at : Option Int
  clicked_at : Option Int
  deriving DecidableEq, Repr

/-- The tracker's HTTP response. -/
inductive TrackResponse where
  | pixel (b64 : String)
  | redirect (loc : String)
  | badRequest (msg : String)
  | invalidType
  deriving DecidableEq, Repr

/-- Tracker lines 34-38: `update({opened_at: now}).eq('id', logId).is('opened_at', null)` —
set `opened_at` on the matching rows only where it is currently null. -/
def updateOpen (now : Int) (logId : String) (rows : List LogRow) : List LogRow :=
  rows.map (fun r =>
    if r.id = logId ∧ r.opened_at = none then { r with opened_at := some now } else r)

/-- Tracker lines 56-60: the analogous guarded update of `clicked_at`. -/
def updateClick (now : Int) (logId : String) (rows : List LogRow) : List LogRow :=
  rows.map (fun r =>
    if r.id = logId ∧ r.clicked_at = none then { r with clicked_at := some now } else r)

/-- src/unnamed/part_003 lines 18-71: reject a missing/empty `logId`; on
`type=open` run the guarded `opened_at` update and return the fixed pixel;
on `type=click` require a target url, run the guarded `clicked_at` update
and redirect; otherwise report an invalid type. -/
def trackerServe (now : Int) (qType qLogId qUrl : Option String)
    (rows : List LogRow) : List LogRow × TrackResponse :=
  if optStr qLogId = "" then (rows, .badRequest "Missing logId")
  else if qType = some "open" then
    (updateOpen now (optStr qLogId) rows, .pixel TRANSPARENT_PIXEL_B64)
  else if qType = some "click" then
    if optStr qUrl = "" then (rows, .badRequest "Missing target URL")
    else (updateClick now (optStr qLogId) rows, .redirect (optStr qUrl))
  else (rows, .invalidType)

end Tracker

namespace FetchGmail

/-- An `email_accounts` row as read by the sync function.  `expires_at` is
an ISO string in the DB; the code turns it into a `Date`, modelled here as
epoch milliseconds. -/
structure AccountRow where
  id : String
  user_id : String
  email_address : String
  provider : String
  access_token : Option String
  expires_at : Option Int
  refresh_token : Option String
  imap_password : Option String
  deriving DecidableEq, Repr

/-- The identity provider's answer to one token-refresh POST
(`refresh`, lines 49-78): `ok` is `response.ok`. -/
structure RefreshGrant where
  ok : Bool
  access_token : String
  expires_in : Int
  deriving DecidableEq, Repr

/-- The environment / `app_config` surface `getOAuthToken` reads, plus the
outcome the token endpoint would return if called. -/
structure TokenEnv where
  envId : Option String
  envSecret : Option String
  appConfig : List (String × String)
  grant : RefreshGrant
  deriving DecidableEq, Repr

deriving instance DecidableEq for Except

/-- Outcome of `getOAuthToken`: how many refresh POSTs were made, the
token or thrown error, and the (possibly updated) account row as persisted
by the `email_accounts` update. -/
structure TokenResult where
  refreshCalls : Nat
  outcome : Except String String
  account : AccountRow
  deriving DecidableEq, Repr

/-- `refresh` (fetch-gmail-emails lines 49-78): one POST to the token
endpoint; on failure throw `AUTH_REFRESH_FAILED`; on success persist the
new access token and `Date.now() + expires_in * 1000` as the new expiry and
return the token. -/
def refreshStep (grant : RefreshGrant) (nowMs : Int) (acct : AccountRow) : TokenResult :=
  if grant.ok then
    { refreshCalls := 1, outcome := .ok grant.access_token,
      account := { acct with access_token := some grant.access_token,
                             expires_at := some (nowMs + grant.expires_in * 1000) } }
  else
    { refreshCalls := 1, outcome := .error "AUTH_REFRESH_FAILED", account := acct }

/-- `app_config` lookup: `config?.find(c => c.key === k)?.value`. -/
def lookupConfig (cfg : List (String × String)) (k : String) : Option String :=
  (cfg.find? (fun p => p.1 == k)).map (fun p => p.2)

/-- The refresh path of `getOAuthToken` (lines 24-46): require a refresh
token, resolve client id/secret from the environment or the `app_config`
fallback, then run `refresh`. -/
def getOAuthTokenRefresh (nowMs : Int) (env : TokenEnv) (acct : AccountRow) : TokenResult :=
  if optStr acct.refresh_token = "" then
    { refreshCalls := 0, outcome := .error "AUTH_OAUTH_REFRESH_MISSING", account := acct }
  else if optStr env.envId ≠ "" ∧ optStr env.envSecret ≠ "" then
    refreshStep env.grant nowMs acct
  else if optStr (lookupConfig env.appConfig "GOOGLE_CLIENT_ID") ≠ ""
      ∧ optStr (lookupConfig env.appConfig "GOOGLE_CLIENT_SECRET") ≠ "" then
    refreshStep env.grant nowMs acct
  else
    { refreshCalls := 0, outcome := .error "AUTH_CONFIG_MISSING", account := acct }

/-- `getOAuthToken` (fetch-gmail-emails lines 12-47): if a truthy cached
access token exists and its expiry lies more than 5 minutes past `now`,
return it with no network call; otherwise take the refresh path. -/
def getOAuthToken (nowMs : Int) (env : TokenEnv) (acct : AccountRow) : TokenResult :=
  match acct.expires_at with
  | some e =>
      if optStr acct.access_token ≠ "" ∧ e - nowMs > 5 * 60 * 1000 then
        { refreshCalls := 0, outcome := .ok (optStr acct.access_token), account := acct }
      else getOAuthTokenRefresh nowMs env acct
  | none => getOAuthTokenRefresh nowMs env acct

/-- The parts of a `mailparser` result the sync uses; a missing field is
`""` (falsy). -/
structure ParsedMail where
  text : String
  textAsHtml : String
  html : String
  deriving DecidableEq, Repr

/-- One inbox message as seen through the fetch loop: envelope fields, the
re-fetched source (`none` when that fetch threw), and the `simpleParser`
result (`none` when parsing threw). -/
structure InboxMsg where
  uid : Nat
  fromAddr : Option String
  fromName : Option String
  messageId : String
  subject : String
  threadId : Option String
  sourceData : Option String
  parsed : Option ParsedMail
  deriving DecidableEq, Repr

/-- A `leads` row as read by the lead-resolution query. -/
structure LeadRow where
  id : String
  campaign_id : Option String
  email : String
  user_id : String
  deriving DecidableEq, Repr

/-- The `replies` record built for one inbox message (the fields the claims
talk about). -/
structure ReplyRecord where
  user_id : String
  email_account_id : String
  lead_id : Option String
  campaign_id : Option String
  message_id : String
  subject : String
  body_text : String
  from_email : String
  to_email : String
  thread_id : Option String
  deriving DecidableEq, Repr

/-- Lead resolution (sync lines 223-228): exact email match scoped to the
requesting user, `maybeSingle`. -/
def findLead (leads : List LeadRow) (email userId : String) : Option LeadRow :=
  leads.find? (fun l => l.email == email && l.user_id == userId)

/-- Build the upsert payload for one parsed inbox message
(sync lines 230-247). -/
def buildReply (acct : AccountRow) (leads : List LeadRow) (m : InboxMsg)
    (p : ParsedMail) : ReplyRecord :=
  let fromEmail := optStr m.fromAddr
  let lead := findLead leads fromEmail acct.user_id
  { user_id := acct.user_id,
    email_account_id := acct.id,
    lead_id := lead.map (fun l => l.id),
    campaign_id := lead.bind (fun l => l.campaign_id),
    message_id := m.messageId,
    subject := m.subject,
    body_text := jsOr p.text (jsOr p.textAsHtml ""),
    from_email := fromEmail,
    to_email := acct.email_address,
    thread_id := m.threadId }

/-- `buildReply` with the parse result read back out of the message (equal
to `buildReply` whenever the message parsed). -/
def replyOf (acct : AccountRow) (leads : List LeadRow) (m : InboxMsg) : ReplyRecord :=
  buildReply acct leads m (m.parsed.getD { text := "", textAsHtml := "", html := "" })

/-- Upsert-on-conflict(`message_id`): replace the matching row if present,
append otherwise. -/
def upsertReply (store : List ReplyRecord) (r : ReplyRecord) : List ReplyRecord :=
  if store.any (fun s => s.message_id == r.message_id) then
    store.map (fun s => if s.message_id == r.message_id then r else s)
  else store ++ [r]

/-- Flush a batch of records through the conflict-keyed upsert. -/
def upsertMany (store : List ReplyRecord) (batch : List ReplyRecord) : List ReplyRecord :=
  batch.foldl upsertReply store

/-- State threaded through the inbox fetch loop: the pending batch, the
durable store, and `syncStats.inboxProcessed`. -/
structure InboxState where
  batch : List ReplyRecord
  store : List ReplyRecord
  processed : Nat
  deriving DecidableEq, Repr

/-- Whether one message survives every skip in the loop body: truthy
sender, sender not the account's own address (case-insensitive), source
fetched and non-empty, `simpleParser` succeeded. -/
def processable (acct : AccountRow) (m : InboxMsg) : Bool :=
  !(optStr m.fromAddr == "")
    && !(strToLower (optStr m.fromAddr) == strToLower acct.email_address)
    && (match m.sourceData with
        | some s => !(s == "")
        | none => false)
    && m.parsed.isSome

/-- One iteration of the inbox loop (sync variant src/unnamed/part_004
lines 189-261): skip empty/self senders, skip messages whose source fetch
failed or came back empty, skip (log-only) messages `simpleParser` throws
on, otherwise batch the record and flush every 5.  Parse failures add no
entry to `syncStats.errors`. -/
def stepInbox (acct : AccountRow) (leads : List LeadRow) (st : InboxState)
    (m : InboxMsg) : InboxState :=
  let fromEmail := optStr m.fromAddr
  if fromEmail = "" ∨ strToLower fromEmail = strToLower acct.email_address then st
  else match m.sourceData with
  | none => st
  | some src =>
      if src = "" then st
      else match m.parsed with
      | none => st
      | some p =>
          let rcd := buildReply acct leads m p
          let batch := st.batch ++ [rcd]
          if 5 ≤ batch.length then
            { batch := [], store := upsertMany st.store batch, processed := st.processed + 1 }
          else
            { batch := batch, store := st.store, processed := st.processed + 1 }

/-- The loop itself, folded over the fetched window. -/
def inboxFold (acct : AccountRow) (leads : List LeadRow) (msgs : List InboxMsg)
    (store0 : List ReplyRecord) : InboxState :=
  msgs.foldl (stepInbox acct leads) { batch := [], store := store0, processed := 0 }

/-- The whole inbox phase: fold the loop over the fetched window starting
from the existing store, then flush the remaining batch (lines 263-265). -/
def runInbox (acct : AccountRow) (leads : List LeadRow) (msgs : List InboxMsg)
    (store0 : List ReplyRecord) : InboxState :=
  { batch := [],
    store := upsertMany (inboxFold acct leads msgs store0).store (inboxFold acct leads msgs store0).batch,
    processed := (inboxFold acct leads msgs store0).processed }

/-- `const fetchCount = Math.min(limit, 10)` (line 175). -/
def inboxFetchCount (limit : Nat) : Nat := min limit 10

/-- `const startRange = Math.max(1, totalMessages - fetchCount + 1)`
(line 176); natural subtraction clamps at 0 exactly where the JS value
would be ≤ 0, so the `max 1` agrees. -/
def inboxStartRange (total limit : Nat) : Nat :=
  max 1 (total + 1 - inboxFetchCount limit)

/-- The sequence positions denoted by the fetch range `startRange:*`. -/
def inboxWindowPositions (total limit : Nat) : List Nat :=
  List.range' (inboxStartRange total limit) (total + 1 - inboxStartRange total limit)

/-- The messages at those positions of a sequence-ordered inbox. -/
def windowOf (mailbox : List InboxMsg) (limit : Nat) : List InboxMsg :=
  mailbox.drop (inboxStartRange mailbox.length limit - 1)

/-- The sync trigger's request body `{accountId, limit = 10}` (line 102). -/
structure SyncRequest where
  accountId : Option String
  limit : Option Nat
  deriving DecidableEq, Repr

/-- Destructuring default: `limit = 10` applies when the field is absent. -/
def effLimit (r : SyncRequest) : Nat := r.limit.getD 10

/-- The JSON results the sync endpoint can produce: plain success with
counts (line 370), partial success (line 382), or an error payload with an
HTTP status (lines 394-407). -/
inductive SyncResponse where
  | ok (inbox sent : Nat)
  | okPartial (inbox sent : Nat) (err : String)
  | fail (err : String) (status : Nat)
  deriving DecidableEq, Repr

/-- Whether a result carries `partial: true`. -/
def SyncResponse.isPartial : SyncResponse → Bool
  | .okPartial _ _ _ => true
  | _ => false

/-- `authHeader.replace('Bearer ', '')` on a well-formed header. -/
def stripBearer (s : String) : String :=
  if strStartsWith s "Bearer " then ⟨s.data.drop 7⟩ else s

/-- Account load (sync lines 110-119): `.eq('id', accountId).eq('user_id', user.id).single()`. -/
def findAccount (db : List AccountRow) (aid uid : String) : Option AccountRow :=
  db.find? (fun a => a.id == aid && a.user_id == uid)

/-- Credential resolution (sync lines 121-140): OAuth via `getOAuthToken`
for Gmail accounts holding a refresh token, otherwise require an IMAP
password. -/
def credCheck (nowMs : Int) (env : TokenEnv) (acct : AccountRow) : Except String Unit :=
  if acct.provider = "Gmail" ∧ optStr acct.refresh_token ≠ "" then
    match (getOAuthToken nowMs env acct).outcome with
    | .ok _ => .ok ()
    | .error e => .error e
  else if optStr acct.imap_password = "" then .error "AUTH_PASSWORD_MISSING"
  else .ok ()

/-- The sync endpoint (src/unnamed/part_004 `serve`, lines 80-409) under
the faults modelled here (missing auth, unknown user, missing/forbidden
account, credential failure, connect failure, inbox-lock failure, and
per-message source/parse failures inside the loop).  Exceptions thrown
before the inner `try` land in the outermost catch and return status 500
with the message.  The sent-mail folder is modelled as absent (its lock
acquisition fails and that branch is skipped), so the sent count is 0. -/
def serveSync (authHeader : Option String) (userOf : String → Option String)
    (accountsDb : List AccountRow) (env : TokenEnv) (nowMs : Int)
    (leads : List LeadRow) (mailbox : List InboxMsg)
    (connectOk inboxLockOk : Bool) (req : SyncRequest)
    (store : List ReplyRecord) : List ReplyRecord × SyncResponse :=
  match authHeader with
  | none => (store, .fail "Missing Authorization header" 500)
  | some h =>
      match userOf (stripBearer h) with
      | none => (store, .fail "UNAUTHORIZED" 500)
      | some uid =>
          if optStr req.accountId = "" then (store, .fail "MISSING_ACCOUNT_ID" 500)
          else match findAccount accountsDb (optStr req.accountId) uid with
          | none => (store, .fail "ACCOUNT_NOT_FOUND_OR_FORBIDDEN" 500)
          | some acct =>
              match credCheck nowMs env acct with
              | .error e => (store, .fail e 500)
              | .ok _ =>
                  if !connectOk then (store, .fail "CONN_FAILED" 500)
                  else if !inboxLockOk then (store, .fail "MAILBOX_INBOX_LOCKED" 500)
                  else
                    ((runInbox acct leads (windowOf mailbox (effLimit req)) store).store,
                     .ok (runInbox acct leads (windowOf mailbox (effLimit req)) store).processed 0)

/-- Concrete message used by the example scenario; `ok := false` makes
`simpleParser` throw on it. -/
def exMsg (i : Nat) (ok : Bool) : InboxMsg :=
  { uid := i, fromAddr := some ("s" ++ toString i ++ "@ex.com"), fromName := some "S",
    messageId := "mid" ++ toString i, subject := "hi", threadId := some "t1",
    sourceData := some "raw",
    parsed := if ok then some { text := "b", textAsHtml := "", html := "" } else none }

/-- The spec's example window: ten messages of which message #7 fails to
parse. -/
def exInbox : List InboxMsg := (List.range 10).map (fun i => exMsg (i + 1) (decide (i + 1 ≠ 7)))

/-- A password-authenticated account owned by user `u1`. -/
def exAcct : AccountRow :=
  { id := "a1", user_id := "u1", email_address := "Me@Gmail.com", provider := "SMTP",
    access_token := none, expires_at := none, refresh_token := none,
    imap_password := some "pw" }

/-- A fully configured token environment whose refresh grant succeeds. -/
def exEnv : TokenEnv :=
  { envId := some "cid", envSecret := some "cs", appConfig := [],
    grant := { ok := true, access_token := "newtok", expires_in := 3600 } }

/-- A session lookup recognising the bearer token `tok` as user `u1`. -/
def exUserOf : String → Option String := fun t => if t == "tok" then some "u1" else none

/-- The example sync request `{accountId: 'a1', limit: 10}`. -/
def exReq : SyncRequest := { accountId := some "a1", limit := some 10 }

end FetchGmail


/-! ## Theorems -/

namespace Unibox

theorem sortByTs_sorted (l : List TimelineItem) : (sortByTs l).Sorted tsLe :=
  List.sorted_insertionSort tsLe l

theorem sortByTs_perm (l : List TimelineItem) : List.Perm (sortByTs l) l :=
  List.perm_insertionSort tsLe l

theorem addMessage_inv (st : List String × List TimelineItem) (r : AReply)
    (hsub : ∀ i ∈ st.2, itemKey i ≠ "" → itemKey i ∈ st.1)
    (hnd : (neKeys st.2).Nodup) :
    (∀ i ∈ (addMessage st r).2, itemKey i ≠ "" → itemKey i ∈ (addMessage st r).1) ∧
      (neKeys (addMessage st r).2).Nodup := by
  classical
  by_cases hseen : appKey r ≠ "" ∧ appKey r ∈ st.1
  · have hadd : addMessage st r = st := by
      unfold addMessage
      rw [if_pos hseen]
    rw [hadd]
    exact ⟨hsub, hnd⟩
  · have hadd : addMessage st r =
        ((if appKey r ≠ "" then appKey r :: st.1 else st.1), st.2 ++ [mkItem r]) := by
      unfold addMessage
      rw [if_neg hseen]
    rw [hadd]
    set item : TimelineItem := mkItem r with hitem
    have hkey : itemKey item = appKey r := by
      simp [itemKey, appKey, hitem, mkItem]
    constructor
    · intro i hi hne
      rcases List.mem_append.mp hi with h | h
      · have := hsub i h hne
        by_cases hk : appKey r = ""
        · rw [if_neg (fun hc => hc hk)]
          exact this
        · rw [if_pos hk]
          exact List.mem_cons_of_mem _ this
      · have : i = item := by simpa using h
        subst this
        rw [hkey] at hne ⊢
        simp [hne]
    · have hsplit : neKeys (st.2 ++ [item]) = neKeys st.2 ++ neKeys [item] := by
        simp [neKeys]
      rw [hsplit]
      by_cases hk : itemKey item = ""
      · simpa [neKeys, hk] using hnd
      · have hone : neKeys [item] = [itemKey item] := by simp [neKeys, hk]
        rw [hone]
        refine List.Nodup.append hnd (List.nodup_singleton _) ?_
        intro a ha hb
        have hb' : a = itemKey item := by simpa using hb
        subst hb'
        have hmem : itemKey item ∈ (st.2.map itemKey) := by
          have := List.mem_of_mem_filter (l := st.2.map itemKey) ha
          simpa using this
        rcases List.mem_map.mp hmem with ⟨i, hi, hik⟩
        have : itemKey item ∈ st.1 := by
          rw [← hik]
          exact hsub i hi (by rw [hik]; exact hk)
        rw [hkey] at this hk
        exact hseen ⟨hk, this⟩

theorem appDedup_nodup (rows : List AReply) : (neKeys (appDedup rows)).Nodup := by
  classical
  suffices h : ∀ st : List String × List TimelineItem,
      (∀ i ∈ st.2, itemKey i ≠ "" → itemKey i ∈ st.1) → (neKeys st.2).Nodup →
      (∀ i ∈ (rows.foldl addMessage st).2,
          itemKey i ≠ "" → itemKey i ∈ (rows.foldl addMessage st).1) ∧
        (neKeys (rows.foldl addMessage st).2).Nodup by
    exact (h ([], []) (by simp) (by simp [neKeys])).2
  induction rows with
  | nil => intro st h1 h2; exact ⟨h1, h2⟩
  | cons r rest ih =>
      intro st h1 h2
      have step := addMessage_inv st r h1 h2
      simpa using ih (addMessage st r) step.1 step.2

theorem nodup_count_msgid {l : List TimelineItem} (hnd : (neKeys l).Nodup)
    {m : String} (hm : m ≠ "") :
    l.countP (fun i => i.message_id == some m) ≤ 1 := by
  classical
  have h1 : l.countP (fun i => i.message_id == some m) ≤
      l.countP (fun i => itemKey i == m) := by
    refine List.countP_mono_left ?_
    intro a _ ha
    have hmsg : a.message_id = some m := by simpa using ha
    have : itemKey a = m := by
      simp [itemKey, jsOr, optStr, hmsg, hm]
    simp [this]
  have h2 : l.countP (fun i => itemKey i == m) = (l.map itemKey).count m := by
    rw [List.count_eq_countP, List.countP_map]
    rfl
  have h3 : (l.map itemKey).count m = (neKeys l).count m := by
    unfold neKeys
    rw [List.count_filter]
    simp [hm]
  have h4 : (neKeys l).count m ≤ 1 := List.nodup_iff_count_le_one.mp hnd m
  omega

/-- Claim C6, counterexample: a sent message persisted both in the
`replies` table and in `email_logs` (as the send endpoint does) appears
twice in the `unibox.js` thread history — the lookup does not deduplicate
by provider message id. -/
theorem c6_duplicate_counterexample :
    ((fetchThreadHistoryUnibox
        [{ message_id := some "m1", id := "r1", received_at := 5 }]
        [{ message_id := some "m1", id := "s1", sent_at := 5 }]).countP
      (fun i => i.message_id == some "m1")) = 2 ∧
    ¬ ((fetchThreadHistoryUnibox
        [{ message_id := some "m1", id := "r1", received_at := 5 }]
        [{ message_id := some "m1", id := "s1", sent_at := 5 }]).countP
      (fun i => i.message_id == some "m1")) ≤ 1 := by
  constructor
  · decide
  · decide

/-- Claim C6 (amended): both `fetchThreadHistory` variants return a list
sorted ascending by timestamp (received time for inbound items, sent time
for outbound items), but only the `app.js` variant deduplicates by provider
message id; the `unibox.js` variant keeps every row of both sources, so a
message reachable via both the replies and the sent-logs path appears
twice. -/
theorem c6_history_amended (replies : List UReply) (sentLogs : List USent)
    (rows : List AReply) (m : String) :
    (fetchThreadHistoryUnibox replies sentLogs).Sorted tsLe ∧
    (fetchThreadHistoryUnibox replies sentLogs).length = replies.length + sentLogs.length ∧
    (fetchThreadHistoryApp rows).Sorted tsLe ∧
    (m ≠ "" →
      (fetchThreadHistoryApp rows).countP (fun i => i.message_id == some m) ≤ 1) := by
  refine ⟨sortByTs_sorted _, ?_, sortByTs_sorted _, ?_⟩
  · have := (sortByTs_perm (replies.map
        (fun r => { message_id := r.message_id, id := r.id,
                    direction := "received", timestamp := r.received_at })
      ++ sentLogs.map
        (fun s => { message_id := s.message_id, id := s.id,
                    direction := "sent", timestamp := s.sent_at }))).length_eq
    simpa [fetchThreadHistoryUnibox] using this
  · intro hm
    have hperm := sortByTs_perm (appDedup rows)
    have := hperm.countP_eq (fun i => i.message_id == some m)
    rw [fetchThreadHistoryApp, this]
    exact nodup_count_msgid (appDedup_nodup rows) hm

/-- Witness for C6 (amended) at a concrete input. -/
theorem c6_history_witness :
    ("m1" : String) ≠ "" ∧
    ((fetchThreadHistoryApp
        [{ message_id := some "m1", id := "r1", typ := none,
           received_at := some 5, created_at := 1 },
         { message_id := some "m1", id := "r2", typ := some "sent",
           received_at := some 7, created_at := 2 }]).countP
      (fun i => i.message_id == some "m1") ≤ 1) :=
  ⟨by decide,
    (c6_history_amended [] []
      [{ message_id := some "m1", id := "r1", typ := none,
         received_at := some 5, created_at := 1 },
       { message_id := some "m1", id := "r2", typ := some "sent",
         received_at := some 7, created_at := 2 }] "m1").2.2.2 (by decide)⟩

end Unibox

namespace Tracker

theorem updateOpen_preserves_set (now : Int) (logId : String) (rows : List LogRow) :
    ∀ r ∈ rows, r.opened_at ≠ none → r ∈ updateOpen now logId rows := by
  intro r hr hset
  unfold updateOpen
  have hfix : (fun r : LogRow =>
      if r.id = logId ∧ r.opened_at = none then { r with opened_at := some now } else r) r = r := by
    show (if r.id = logId ∧ r.opened_at = none
        then ({ r with opened_at := some now } : LogRow) else r) = r
    rw [if_neg]
    rintro ⟨-, h⟩
    exact hset h
  exact hfix ▸ List.mem_map_of_mem _ hr

theorem updateOpen_idem (now1 now2 : Int) (logId : String) (rows : List LogRow) :
    updateOpen now2 logId (updateOpen now1 logId rows) = updateOpen now1 logId rows := by
  induction rows with
  | nil => rfl
  | cons r rest ih =>
      unfold updateOpen at ih ⊢
      simp only [List.map_cons, List.map_map] at ih ⊢
      by_cases h : r.id = logId ∧ r.opened_at = none
      · rw [if_pos h]
        have h2 : ¬ (({ r with opened_at := some now1 } : LogRow).id = logId ∧
            ({ r with opened_at := some now1 } : LogRow).opened_at = none) := by
          rintro ⟨-, hc⟩
          simp at hc
        rw [if_neg h2, ih]
      · rw [if_neg h, if_neg h, ih]

theorem updateClick_idem (now1 now2 : Int) (logId : String) (rows : List LogRow) :
    updateClick now2 logId (updateClick now1 logId rows) = updateClick now1 logId rows := by
  induction rows with
  | nil => rfl
  | cons r rest ih =>
      unfold updateClick at ih ⊢
      simp only [List.map_cons, List.map_map] at ih ⊢
      by_cases h : r.id = logId ∧ r.clicked_at = none
      · rw [if_pos h]
        have h2 : ¬ (({ r with clicked_at := some now1 } : LogRow).id = logId ∧
            ({ r with clicked_at := some now1 } : LogRow).clicked_at = none) := by
          rintro ⟨-, hc⟩
          simp at hc
        rw [if_neg h2, ih]
      · rw [if_neg h, if_neg h, ih]

/-- Claim C7: an open-beacon request returns the fixed 1×1 transparent
image and sets `opened_at` only where it is currently unset; a second open
request for the same log id leaves the stored rows unchanged.  A click
request likewise sets `clicked_at` at most once and then redirects to the
target URL. -/
theorem c7_tracking_idempotent (rows : List LogRow) (logId : String)
    (now1 now2 : Int) (u1 u2 : Option String) (url2 : String)
    (hlog : logId ≠ "") :
    (trackerServe now1 (some "open") (some logId) u1 rows).2 =
        .pixel TRANSPARENT_PIXEL_B64 ∧
    (trackerServe now2 (some "open") (some logId) u2
        (trackerServe now1 (some "open") (some logId) u1 rows).1).1 =
      (trackerServe now1 (some "open") (some logId) u1 rows).1 ∧
    (∀ r ∈ rows, r.opened_at ≠ none →
        r ∈ (trackerServe now1 (some "open") (some logId) u1 rows).1) ∧
    (url2 ≠ "" →
      (trackerServe now1 (some "click") (some logId) (some url2) rows).2 =
          .redirect url2 ∧
      (trackerServe now2 (some "click") (some logId) (some url2)
          (trackerServe now1 (some "click") (some logId) (some url2) rows).1).1 =
        (trackerServe now1 (some "click") (some logId) (some url2) rows).1) := by
  have hopen : ∀ (n : Int) (u : Option String) (rs : List LogRow),
      trackerServe n (some "open") (some logId) u rs =
        (updateOpen n logId rs, .pixel TRANSPARENT_PIXEL_B64) := by
    intro n u rs
    unfold trackerServe
    rw [if_neg (by simpa [optStr] using hlog)]
    simp [optStr]
  refine ⟨?_, ?_, ?_, ?_⟩
  · rw [hopen]
  · simp only [hopen]
    exact updateOpen_idem now1 now2 logId rows
  · intro r hr hset
    rw [hopen]
    exact updateOpen_preserves_set now1 logId rows r hr hset
  · intro hurl
    have hclick : ∀ (n : Int) (rs : List LogRow),
        trackerServe n (some "click") (some logId) (some url2) rs =
          (updateClick n logId rs, .redirect url2) := by
      intro n rs
      unfold trackerServe
      rw [if_neg (by simpa [optStr] using hlog)]
      rw [if_neg (by decide)]
      rw [if_pos rfl]
      rw [if_neg (by simpa [optStr] using hurl)]
      rfl
    constructor
    · rw [hclick]
    · simp only [hclick]
      exact updateClick_idem now1 now2 logId rows

/-- Witness for C7 at a concrete log table. -/
theorem c7_tracking_witness :
    ("L1" : String) ≠ "" ∧
    (trackerServe 100 (some "open") (some "L1") none
        [{ id := "L1", opened_at := none, clicked_at := none }]).2 =
      .pixel TRANSPARENT_PIXEL_B64 ∧
    (trackerServe 200 (some "open") (some "L1") none
        (trackerServe 100 (some "open") (some "L1") none
          [{ id := "L1", opened_at := none, clicked_at := none }]).1).1 =
      (trackerServe 100 (some "open") (some "L1") none
        [{ id := "L1", opened_at := none, clicked_at := none }]).1 := by
  have h := c7_tracking_idempotent
    [{ id := "L1", opened_at := none, clicked_at := none }] "L1" 100 200 none none "u"
    (by decide)
  exact ⟨by decide, h.1, h.2.1⟩

end Tracker

namespace SendEmail

/-- Claim C4: when the provider rejects a supplied thread id as invalid,
the send is retried exactly once with the thread id omitted (the provider
is called exactly twice, first with the thread id, then without), the
second attempt's outcome is what gets returned and persisted, at most one
`email_logs` row is written for the logical send, and no execution ever
makes more than two provider calls. -/
theorem c4_thread_retry_once (provider : Option String → SendOutcome) (t : String)
    (dbR dbL : Bool) (logId : String) (ht : t ≠ "")
    (hinv : invalidThread (provider (some t)) = true) :
    sendWithFallback provider (some t) = (provider none, [some t, none]) ∧
    (sendPipeline provider (some t) dbR dbL logId).calls = [some t, none] ∧
    (sendPipeline provider (some t) dbR dbL logId).logs.length ≤ 1 ∧
    (∀ row ∈ (sendPipeline provider (some t) dbR dbL logId).logs,
      row.message_id = (provider none).id ∧ row.thread_id = (provider none).threadId) ∧
    (∀ tid : Option String, ((sendWithFallback provider tid).2).length ≤ 2) := by
  have hj : jsOrNull (some t) = some t := by simp [jsOrNull, ht]
  have hsf : sendWithFallback provider (some t) = (provider none, [some t, none]) := by
    unfold sendWithFallback
    rw [hj, if_pos hinv]
  refine ⟨hsf, ?_, ?_, ?_, ?_⟩
  · unfold sendPipeline
    rw [hsf]
    cases herr : (provider none).error <;> simp [herr]
  · unfold sendPipeline
    rw [hsf]
    cases herr : (provider none).error <;> cases dbL <;> simp [herr]
  · unfold sendPipeline
    rw [hsf]
    cases herr : (provider none).error <;> cases dbL <;> simp [herr]
  · intro tid
    unfold sendWithFallback
    by_cases h : invalidThread (provider (jsOrNull tid)) <;> simp [h]

/-- Witness for C4 with a provider that rejects the thread id on the first
call and succeeds on the retry. -/
theorem c4_thread_retry_once_witness :
    (sendPipeline
      (fun o => match o with
        | some _ => { error := some { message := "Invalid thread_id: 123" }, id := "", threadId := "" }
        | none => { error := none, id := "m2", threadId := "t2" })
      (some "t1") true true "log1").calls = [some "t1", none] :=
  (c4_thread_retry_once
    (fun o => match o with
      | some _ => { error := some { message := "Invalid thread_id: 123" }, id := "", threadId := "" }
      | none => { error := none, id := "m2", threadId := "t2" })
    "t1" true true "log1" (by decide) (by decide)).2.1

/-- Claim C9, counterexample: a non-reply send (`originalMessageId`
absent) with subject `Hello` is emitted with subject `Re: Hello` — the
prefix is added even though the send is not a reply, so the subject of a
non-reply send is not emitted unchanged. -/
theorem c9_nonreply_prefixed_counterexample :
    strSubject (some "Hello") = "Re: Hello" ∧
    strSubject (some "Hello") ≠ "Hello" ∧
    (rawLines "me@x.com" "you@y.com" (some "Hello") none "<p>hi</p>").get? 2 =
      some "Subject: Re: Hello" := by
  refine ⟨by decide, by decide, by decide⟩

/-- Claim C9 (amended): the Subject header is prefixed with `Re: `
whenever the supplied subject is absent, empty (then `(no subject)` is
used), or does not already start with `Re:` — regardless of whether the
send is a reply; a subject already starting with `Re:` is emitted
unchanged (never double-prefixed), and the emitted Subject line does not
depend on `originalMessageId`. -/
theorem c9_subject_amended (s : String) (subj o1 o2 : Option String)
    (f t html : String) :
    (s ≠ "" → strStartsWith s "Re:" = true → strSubject (some s) = s) ∧
    (strStartsWith s "Re:" = false →
      strSubject (some s) = "Re: " ++ jsOr s "(no subject)") ∧
    strSubject none = "Re: (no subject)" ∧
    (rawLines f t subj o1 html).get? 2 = some ("Subject: " ++ strSubject subj) ∧
    (rawLines f t subj o1 html).get? 2 = (rawLines f t subj o2 html).get? 2 := by
  refine ⟨?_, ?_, rfl, ?_, ?_⟩
  · intro hne hsw
    show (if s ≠ "" ∧ strStartsWith s "Re:" = true then s
        else "Re: " ++ if s = "" then "(no subject)" else s) = s
    rw [if_pos ⟨hne, hsw⟩]
  · intro hsw
    show (if s ≠ "" ∧ strStartsWith s "Re:" = true then s
        else "Re: " ++ if s = "" then "(no subject)" else s) =
      "Re: " ++ jsOr s "(no subject)"
    rw [if_neg]
    · by_cases he : s = "" <;> simp [jsOr, he]
    · rintro ⟨-, hc⟩
      rw [hsw] at hc
      exact absurd hc (by decide)
  · simp [rawLines]
  · simp [rawLines]

/-- Witness for C9 (amended): an already-prefixed subject is left
untouched. -/
theorem c9_subject_amended_witness :
    ("Re: Hi" : String) ≠ "" ∧ strStartsWith "Re: Hi" "Re:" = true ∧
    strSubject (some "Re: Hi") = "Re: Hi" :=
  ⟨by decide, by decide,
    (c9_subject_amended "Re: Hi" none none none "f" "t" "h").1 (by decide) (by decide)⟩

/-- Claim C10: when the provider send (after the optional thread retry)
succeeds, the endpoint's response is success with the provider's message
id and thread id no matter how the local `replies` and `email_logs`
inserts fare; a failed insert leaves no corresponding row, so a success
response does not guarantee that either local record exists. -/
theorem c10_send_success_persist_independent (provider : Option String → SendOutcome)
    (tid : Option String) (dbReplyOk dbLogOk : Bool) (logId : String)
    (hok : (sendWithFallback provider tid).1.error = none) :
    (sendPipeline provider tid dbReplyOk dbLogOk logId).response =
      .ok (sendWithFallback provider tid).1.id (sendWithFallback provider tid).1.threadId ∧
    (dbReplyOk = false → (sendPipeline provider tid dbReplyOk dbLogOk logId).replies = []) ∧
    (dbLogOk = false → (sendPipeline provider tid dbReplyOk dbLogOk logId).logs = []) := by
  cases dbReplyOk <;> cases dbLogOk <;> simp [sendPipeline, hok]

/-- Witness for C10: provider succeeds, both local inserts fail, response
is still success and nothing is persisted. -/
theorem c10_send_success_witness :
    ((sendWithFallback (fun _ => { error := none, id := "m9", threadId := "t9" })
        (some "t0")).1.error = none) ∧
    (sendPipeline (fun _ => { error := none, id := "m9", threadId := "t9" })
        (some "t0") false false "log9").response = .ok "m9" "t9" ∧
    (sendPipeline (fun _ => { error := none, id := "m9", threadId := "t9" })
        (some "t0") false false "log9").replies = [] ∧
    (sendPipeline (fun _ => { error := none, id := "m9", threadId := "t9" })
        (some "t0") false false "log9").logs = [] := by
  have h := c10_send_success_persist_independent
    (fun _ => { error := none, id := "m9", threadId := "t9" })
    (some "t0") false false "log9" (by decide)
  exact ⟨by decide, by simpa using h.1, h.2.1 rfl, h.2.2 rfl⟩

end SendEmail

namespace FetchGmail

theorem upsertMany_append_one (s b : List ReplyRecord) (r : ReplyRecord) :
    upsertMany s (b ++ [r]) = upsertReply (upsertMany s b) r := by
  simp [upsertMany, List.foldl_append]

theorem upsertMany_cons (s : List ReplyRecord) (r : ReplyRecord) (l : List ReplyRecord) :
    upsertMany s (r :: l) = upsertMany (upsertReply s r) l := rfl

theorem processable_true_elim (acct : AccountRow) (m : InboxMsg)
    (h : processable acct m = true) :
    optStr m.fromAddr ≠ "" ∧
    strToLower (optStr m.fromAddr) ≠ strToLower acct.email_address ∧
    (∃ src, m.sourceData = some src ∧ src ≠ "") ∧ (∃ p, m.parsed = some p) := by
  unfold processable at h
  simp only [Bool.and_eq_true] at h
  obtain ⟨⟨⟨h1, h2⟩, h3⟩, h4⟩ := h
  refine ⟨?_, ?_, ?_, ?_⟩
  · intro hc
    rw [hc] at h1
    simp at h1
  · intro hc
    rw [hc] at h2
    simp at h2
  · cases hsrc : m.sourceData with
    | none => rw [hsrc] at h3; simp at h3
    | some src =>
        rw [hsrc] at h3
        refine ⟨src, rfl, ?_⟩
        intro hc
        rw [hc] at h3
        simp at h3
  · cases hp : m.parsed with
    | none => rw [hp] at h4; simp at h4
    | some p => exact ⟨p, rfl⟩

theorem stepInbox_skip (acct : AccountRow) (leads : List LeadRow) (st : InboxState)
    (m : InboxMsg) (h : processable acct m = false) :
    stepInbox acct leads st m = st := by
  by_cases hA : optStr m.fromAddr = "" ∨ strToLower (optStr m.fromAddr) = strToLower acct.email_address
  · simp [stepInbox, hA]
  · cases hsrc : m.sourceData with
    | none => simp [stepInbox, hA, hsrc]
    | some src =>
        by_cases h2 : src = ""
        · simp [stepInbox, hA, hsrc, h2]
        · cases hp : m.parsed with
          | none => simp [stepInbox, hA, hsrc, hp, h2]
          | some p =>
              exfalso
              rcases not_or.mp hA with ⟨ha, hb⟩
              have : processable acct m = true := by
                unfold processable
                rw [hsrc, hp]
                simp [ha, hb, h2]
              rw [this] at h
              exact absurd h (by simp)

theorem stepInbox_proc (acct : AccountRow) (leads : List LeadRow) (st : InboxState)
    (m : InboxMsg) (h : processable acct m = true) :
    stepInbox acct leads st m =
      (if 5 ≤ (st.batch ++ [replyOf acct leads m]).length then
        { batch := [], store := upsertMany st.store (st.batch ++ [replyOf acct leads m]),
          processed := st.processed + 1 }
      else
        { batch := st.batch ++ [replyOf acct leads m], store := st.store,
          processed := st.processed + 1 }) := by
  obtain ⟨h1, h2, ⟨src, hsrc, hsne⟩, ⟨p, hp⟩⟩ := processable_true_elim acct m h
  have hA : ¬(optStr m.fromAddr = "" ∨
      strToLower (optStr m.fromAddr) = strToLower acct.email_address) := by
    rintro (hc | hc)
    exacts [h1 hc, h2 hc]
  have hrep : replyOf acct leads m = buildReply acct leads m p := by
    unfold replyOf
    rw [hp]
    rfl
  simp [stepInbox, hA, hsrc, hsne, hp, hrep]

theorem stepInbox_store_batch (acct : AccountRow) (leads : List LeadRow)
    (st : InboxState) (m : InboxMsg) (h : processable acct m = true) :
    upsertMany (stepInbox acct leads st m).store (stepInbox acct leads st m).batch =
      upsertReply (upsertMany st.store st.batch) (replyOf acct leads m) ∧
    (stepInbox acct leads st m).processed = st.processed + 1 := by
  rw [stepInbox_proc acct leads st m h]
  by_cases hlen : 5 ≤ (st.batch ++ [replyOf acct leads m]).length
  · rw [if_pos hlen]
    exact ⟨(upsertMany_append_one st.store st.batch (replyOf acct leads m)).symm ▸ rfl, rfl⟩
  · rw [if_neg hlen]
    exact ⟨upsertMany_append_one st.store st.batch (replyOf acct leads m), rfl⟩

theorem foldl_stepInbox_spec (acct : AccountRow) (leads : List LeadRow)
    (msgs : List InboxMsg) : ∀ st : InboxState,
    upsertMany (msgs.foldl (stepInbox acct leads) st).store
        (msgs.foldl (stepInbox acct leads) st).batch =
      upsertMany (upsertMany st.store st.batch)
        ((msgs.filter (fun m => processable acct m)).map (replyOf acct leads)) ∧
    (msgs.foldl (stepInbox acct leads) st).processed =
      st.processed + (msgs.filter (fun m => processable acct m)).length := by
  induction msgs with
  | nil => intro st; exact ⟨rfl, rfl⟩
  | cons m rest ih =>
      intro st
      by_cases hp : processable acct m = true
      · have hstep := stepInbox_store_batch acct leads st m hp
        have hfil : (m :: rest).filter (fun m => processable acct m) =
            m :: rest.filter (fun m => processable acct m) :=
          List.filter_cons_of_pos hp
        have hrec := ih (stepInbox acct leads st m)
        rw [List.foldl_cons, hfil, List.map_cons]
        constructor
        · rw [hrec.1, hstep.1, upsertMany_cons]
        · rw [hrec.2, hstep.2, List.length_cons]
          omega
      · have hm : processable acct m = false := by
          rw [Bool.not_eq_true] at hp
          exact hp
        have hfil : (m :: rest).filter (fun m => processable acct m) =
            rest.filter (fun m => processable acct m) :=
          List.filter_cons_of_neg (by rw [hm]; exact Bool.false_ne_true)
        rw [List.foldl_cons, stepInbox_skip acct leads st m hm, hfil]
        exact ih st

theorem runInbox_spec (acct : AccountRow) (leads : List LeadRow)
    (msgs : List InboxMsg) (store0 : List ReplyRecord) :
    runInbox acct leads msgs store0 =
      { batch := [],
        store := upsertMany store0
          ((msgs.filter (fun m => processable acct m)).map (replyOf acct leads)),
        processed := (msgs.filter (fun m => processable acct m)).length } := by
  have h := foldl_stepInbox_spec acct leads msgs
    { batch := [], store := store0, processed := 0 }
  unfold runInbox inboxFold
  rw [h.1, h.2]
  simp [upsertMany]

theorem serveSync_ok (ah : String) (userOf : String → Option String)
    (db : List AccountRow) (env : TokenEnv) (nowMs : Int)
    (leads : List LeadRow) (mailbox : List InboxMsg) (req : SyncRequest)
    (store : List ReplyRecord) (uid : String) (acct : AccountRow)
    (hu : userOf (stripBearer ah) = some uid)
    (haid : optStr req.accountId ≠ "")
    (hacct : findAccount db (optStr req.accountId) uid = some acct)
    (hcred : credCheck nowMs env acct = .ok ()) :
    serveSync (some ah) userOf db env nowMs leads mailbox true true req store =
      ((runInbox acct leads (windowOf mailbox (effLimit req)) store).store,
       .ok (runInbox acct leads (windowOf mailbox (effLimit req)) store).processed 0) := by
  simp [serveSync, hu, haid, hacct, hcred]

theorem upsertReply_all (p : ReplyRecord → Bool) (s : List ReplyRecord)
    (r : ReplyRecord) (hs : s.all p = true) (hr : p r = true) :
    (upsertReply s r).all p = true := by
  unfold upsertReply
  by_cases h : s.any (fun x => x.message_id == r.message_id)
  · rw [if_pos h]
    rw [List.all_eq_true] at hs ⊢
    intro x hx
    rcases List.mem_map.mp hx with ⟨y, hy, hxy⟩
    by_cases hm : (y.message_id == r.message_id) = true
    · rw [← hxy]
      simp only [hm, if_true]
      exact hr
    · rw [← hxy, if_neg hm]
      exact hs y hy
  · rw [if_neg h]
    simp [List.all_append, hs, hr]

theorem upsertMany_all (p : ReplyRecord → Bool) (s batch : List ReplyRecord)
    (hs : s.all p = true) (hb : batch.all p = true) :
    (upsertMany s batch).all p = true := by
  induction batch generalizing s with
  | nil => exact hs
  | cons r rest ih =>
      rw [List.all_cons, Bool.and_eq_true] at hb
      exact ih (upsertReply s r) (upsertReply_all p s r hs hb.1) hb.2

/-- Claim C1, counterexample: for the 10-message window in which message
#7 fails to parse, the sync does store the other 9 messages and completes
without aborting, but the result is the plain success payload
`{success: true, inbox: 9, sent: 0}` — it does not report `partial: true`
and carries no error entry for the bad message, contradicting the claimed
result shape. -/
theorem c1_no_partial_flag_counterexample :
    (serveSync (some "Bearer tok") exUserOf [exAcct] exEnv 0 [] exInbox true true
        exReq []).2 = .ok 9 0 ∧
    (serveSync (some "Bearer tok") exUserOf [exAcct] exEnv 0 [] exInbox true true
        exReq []).2.isPartial = false ∧
    (serveSync (some "Bearer tok") exUserOf [exAcct] exEnv 0 [] exInbox true true
        exReq []).1.length = 9 := by
  refine ⟨by decide, by decide, by decide⟩

/-- Claim C1 (amended): a message whose parse fails is logged and skipped
while every other processable message in the window is still processed and
stored (the store becomes the upsert of exactly the processable messages'
records), and the invocation never aborts because of the bad message — it
completes with a plain success result carrying the processed count, with
no `partial` flag and no error entry for the parse failure. -/
theorem c1_parse_skip_amended (ah : String) (userOf : String → Option String)
    (db : List AccountRow) (env : TokenEnv) (nowMs : Int)
    (leads : List LeadRow) (mailbox : List InboxMsg) (req : SyncRequest)
    (store0 : List ReplyRecord) (uid : String) (acct : AccountRow)
    (hu : userOf (stripBearer ah) = some uid)
    (haid : optStr req.accountId ≠ "")
    (hacct : findAccount db (optStr req.accountId) uid = some acct)
    (hcred : credCheck nowMs env acct = .ok ()) :
    serveSync (some ah) userOf db env nowMs leads mailbox true true req store0 =
      (upsertMany store0
          (((windowOf mailbox (effLimit req)).filter
              (fun m => processable acct m)).map (replyOf acct leads)),
       .ok ((windowOf mailbox (effLimit req)).filter
              (fun m => processable acct m)).length 0) ∧
    (serveSync (some ah) userOf db env nowMs leads mailbox true true req
        store0).2.isPartial = false := by
  have h := serveSync_ok ah userOf db env nowMs leads mailbox req store0 uid acct
    hu haid hacct hcred
  have h2 := runInbox_spec acct leads (windowOf mailbox (effLimit req)) store0
  constructor
  · rw [h, h2]
  · rw [h, h2]
    rfl

/-- Witness for C1 (amended) on the example window. -/
theorem c1_parse_skip_witness :
    (serveSync (some "Bearer tok") exUserOf [exAcct] exEnv 0 [] exInbox true true
        exReq []).2.isPartial = false :=
  (c1_parse_skip_amended "Bearer tok" exUserOf [exAcct] exEnv 0 [] exInbox exReq []
    "u1" exAcct (by decide) (by decide) (by decide) (by decide)).2

/-- Claim C2: the inbox fetch window of a sync call `{accountId, limit}`
contains at most `min(limit, 10)` sequence positions (the protocol cap for
the inbox being 10), and those are exactly the last ones: every position
in the window lies in the last `min(limit, 10)` positions of the mailbox,
every such position is in the window, and the fetched message list is no
longer than `min(limit, 10)`; in particular a call with `limit = 10`
fetches at most 10 inbox messages. -/
theorem c2_window_bound (total : Nat) (req : SyncRequest) (mailbox : List InboxMsg) :
    (inboxWindowPositions total (effLimit req)).length ≤ min (effLimit req) 10 ∧
    (∀ p ∈ inboxWindowPositions total (effLimit req),
        1 ≤ p ∧ p ≤ total ∧ total - p < inboxFetchCount (effLimit req)) ∧
    (∀ p : Nat, 1 ≤ p → p ≤ total → total - p < inboxFetchCount (effLimit req) →
        p ∈ inboxWindowPositions total (effLimit req)) ∧
    (windowOf mailbox (effLimit req)).length ≤ min (effLimit req) 10 := by
  refine ⟨?_, ?_, ?_, ?_⟩
  · rw [inboxWindowPositions, List.length_range']
    unfold inboxStartRange inboxFetchCount
    omega
  · intro p hp
    rw [inboxWindowPositions, List.mem_range'_1] at hp
    unfold inboxStartRange at hp
    unfold inboxFetchCount at hp ⊢
    omega
  · intro p h1 h2 h3
    rw [inboxWindowPositions, List.mem_range'_1]
    unfold inboxFetchCount at h3
    unfold inboxStartRange inboxFetchCount
    omega
  · unfold windowOf inboxStartRange inboxFetchCount
    rw [List.length_drop]
    omega

/-- Witness for C2 at `total = 50`, `limit = 10`: the window holds at most
10 positions and position 41 (one of the last ten) is in it. -/
theorem c2_window_bound_witness :
    (inboxWindowPositions 50 (effLimit { accountId := some "a1", limit := some 10 })).length ≤
        min (effLimit { accountId := some "a1", limit := some 10 }) 10 ∧
    41 ∈ inboxWindowPositions 50 (effLimit { accountId := some "a1", limit := some 10 }) :=
  ⟨(c2_window_bound 50 { accountId := some "a1", limit := some 10 } []).1,
   (c2_window_bound 50 { accountId := some "a1", limit := some 10 } []).2.2.1 41
     (by decide) (by decide) (by decide)⟩

/-- Claim C3: the sync endpoint verifies that the target account belongs
to the authenticated caller before any mailbox work; when no account with
the requested id is owned by the caller, it rejects with
`ACCOUNT_NOT_FOUND_OR_FORBIDDEN` and performs no sync side effects (the
store is returned unchanged), regardless of connection state — and nothing
in the endpoint retries. -/
theorem c3_ownership_required (ah : String) (userOf : String → Option String)
    (db : List AccountRow) (env : TokenEnv) (nowMs : Int)
    (leads : List LeadRow) (mailbox : List InboxMsg) (cOk lOk : Bool)
    (req : SyncRequest) (store : List ReplyRecord) (uid : String)
    (hu : userOf (stripBearer ah) = some uid)
    (haid : optStr req.accountId ≠ "")
    (hown : ∀ a ∈ db, a.id = optStr req.accountId → a.user_id ≠ uid) :
    serveSync (some ah) userOf db env nowMs leads mailbox cOk lOk req store =
      (store, .fail "ACCOUNT_NOT_FOUND_OR_FORBIDDEN" 500) := by
  have hfind : findAccount db (optStr req.accountId) uid = none := by
    unfold findAccount
    rw [List.find?_eq_none]
    intro a ha
    simp only [Bool.and_eq_true, beq_iff_eq, not_and]
    intro h1 h2
    exact hown a ha h1 h2
  simp [serveSync, hu, haid, hfind]

/-- Witness for C3: a caller who does not own the account is rejected. -/
theorem c3_ownership_required_witness :
    serveSync (some "Bearer tok") exUserOf
        [{ exAcct with user_id := "u2" }] exEnv 0 [] exInbox true true exReq [] =
      ([], .fail "ACCOUNT_NOT_FOUND_OR_FORBIDDEN" 500) :=
  c3_ownership_required "Bearer tok" exUserOf [{ exAcct with user_id := "u2" }]
    exEnv 0 [] exInbox true true exReq [] "u1" (by decide) (by decide)
    (by intro a ha h1; simp at ha; rw [ha]; decide)

/-- Claim C5: for an OAuth account, `getOAuthToken` returns the cached
access token unchanged with zero refresh calls whenever the cached expiry
lies more than 5 minutes past `now`; whenever the expiry is within the
5-minute margin or absent (and a refresh token plus client credentials are
configured and the grant succeeds), it makes exactly one refresh call,
returns the new token, and persists the new token and the expiry
`now + expires_in · 1000` back onto the account record. -/
theorem c5_token_refresh_boundary (nowMs : Int) (env : TokenEnv) (acct : AccountRow) :
    (∀ tok e, acct.access_token = some tok → tok ≠ "" → acct.expires_at = some e →
      e - nowMs > 5 * 60 * 1000 →
      getOAuthToken nowMs env acct =
        { refreshCalls := 0, outcome := .ok tok, account := acct }) ∧
    (∀ rt cid cs, acct.refresh_token = some rt → rt ≠ "" →
      env.envId = some cid → cid ≠ "" → env.envSecret = some cs → cs ≠ "" →
      env.grant.ok = true →
      (acct.expires_at = none ∨ ∃ e, acct.expires_at = some e ∧ e - nowMs ≤ 5 * 60 * 1000) →
      getOAuthToken nowMs env acct =
        { refreshCalls := 1, outcome := .ok env.grant.access_token,
          account := { acct with access_token := some env.grant.access_token,
                                 expires_at := some (nowMs + env.grant.expires_in * 1000) } }) := by
  constructor
  · intro tok e htok hne hexp hgt
    simp only [getOAuthToken, hexp]
    rw [if_pos ⟨by simp [optStr, htok, hne], hgt⟩]
    simp [optStr, htok]
  · intro rt cid cs hrt hrtne hcid hcidne hcs hcsne hok hexp
    have hrefresh : getOAuthTokenRefresh nowMs env acct =
        { refreshCalls := 1, outcome := .ok env.grant.access_token,
          account := { acct with access_token := some env.grant.access_token,
                                 expires_at := some (nowMs + env.grant.expires_in * 1000) } } := by
      unfold getOAuthTokenRefresh
      rw [if_neg (by simp [optStr, hrt, hrtne])]
      rw [if_pos ⟨by simp [optStr, hcid, hcidne], by simp [optStr, hcs, hcsne]⟩]
      unfold refreshStep
      rw [if_pos hok]
    rcases hexp with hnone | ⟨e, he, hle⟩
    · simp only [getOAuthToken, hnone]
      exact hrefresh
    · simp only [getOAuthToken, he]
      rw [if_neg (by rintro ⟨-, hgt⟩; omega)]
      exact hrefresh

/-- Witness for C5: a token expiring in 10 minutes is returned cached with
zero refresh calls; one expiring in 4 minutes triggers exactly one refresh
that is persisted. -/
theorem c5_token_refresh_witness :
    getOAuthToken 0 exEnv
        { exAcct with provider := "Gmail", access_token := some "tok0",
                      expires_at := some 600000, refresh_token := some "rt" } =
      { refreshCalls := 0, outcome := .ok "tok0",
        account := { exAcct with provider := "Gmail", access_token := some "tok0",
                                 expires_at := some 600000, refresh_token := some "rt" } } ∧
    getOAuthToken 0 exEnv
        { exAcct with provider := "Gmail", access_token := some "tok0",
                      expires_at := some 240000, refresh_token := some "rt" } =
      { refreshCalls := 1, outcome := .ok "newtok",
        account := { exAcct with provider := "Gmail", access_token := some "newtok",
                                 expires_at := some 3600000, refresh_token := some "rt" } } :=
  ⟨(c5_token_refresh_boundary 0 exEnv _).1 "tok0" 600000 rfl (by decide) rfl (by decide),
   (c5_token_refresh_boundary 0 exEnv _).2 "rt" "cid" "cs" rfl (by decide) rfl (by decide)
     rfl (by decide) rfl (Or.inr ⟨240000, rfl, by decide⟩)⟩

/-- Claim C8: no record stored by the inbox sync has a sender address that
case-insensitively equals the syncing account's own address — if the store
satisfies the exclusion invariant before the sync, it still satisfies it
after, because every fetched message from the account's own address is
skipped before any record is built. -/
theorem c8_self_exclusion (acct : AccountRow) (leads : List LeadRow)
    (msgs : List InboxMsg) (store0 : List ReplyRecord)
    (hstore : store0.all
        (fun r => !(strToLower r.from_email == strToLower acct.email_address)) = true) :
    ((runInbox acct leads msgs store0).store.all
        (fun r => !(strToLower r.from_email == strToLower acct.email_address))) = true := by
  rw [runInbox_spec]
  refine upsertMany_all _ _ _ hstore ?_
  rw [List.all_eq_true]
  intro x hx
  rcases List.mem_map.mp hx with ⟨m, hm, hxm⟩
  have hproc : processable acct m = true := by
    have := (List.mem_filter.mp hm).2
    simpa using this
  obtain ⟨-, hne, -, -⟩ := processable_true_elim acct m hproc
  rw [← hxm]
  have hfe : (replyOf acct leads m).from_email = optStr m.fromAddr := rfl
  simp [hfe, hne]

/-- Witness for C8: syncing the example window into an empty store keeps
the exclusion invariant. -/
theorem c8_self_exclusion_witness :
    ((runInbox exAcct [] exInbox []).store.all
        (fun r => !(strToLower r.from_email == strToLower exAcct.email_address))) = true :=
  c8_self_exclusion exAcct [] exInbox [] (by decide)

end FetchGmail
